/-
Verification of the CamGuard backend against its specification.

The Python sources are shallowly embedded: floats are modelled as
rationals (ℚ), Python ints as ℤ or ℕ, dictionaries as association
lists or `String → Option _` maps, and the external services (Gemini
planner, Twilio, the database) as explicit oracle parameters or
explicit record lists threaded through the functions.
-/

import Mathlib

namespace CamGuard

/-! ## Schemas (backend/schemas.py) -/

/-- `ActionType` enum from `backend/schemas.py`. -/
inductive ActionType
  | INCREASE_CHECK_RATE
  | SEND_LOW_PRIORITY_HEADSUP
  | SEND_SMS_PRIMARY
  | START_VOICE_CALL_PRIMARY
  | ESCALATE_TO_BACKUP
  | CANCEL_ESCALATION
  | CLOSE_INCIDENT
  | REQUEST_STRONG_VERIFY
  deriving DecidableEq, Repr

/-- The `.value` string of an `ActionType` member. -/
def ActionType.value : ActionType → String
  | .INCREASE_CHECK_RATE => "INCREASE_CHECK_RATE"
  | .SEND_LOW_PRIORITY_HEADSUP => "SEND_LOW_PRIORITY_HEADSUP"
  | .SEND_SMS_PRIMARY => "SEND_SMS_PRIMARY"
  | .START_VOICE_CALL_PRIMARY => "START_VOICE_CALL_PRIMARY"
  | .ESCALATE_TO_BACKUP => "ESCALATE_TO_BACKUP"
  | .CANCEL_ESCALATION => "CANCEL_ESCALATION"
  | .CLOSE_INCIDENT => "CLOSE_INCIDENT"
  | .REQUEST_STRONG_VERIFY => "REQUEST_STRONG_VERIFY"

/-- `Verdict` enum from `backend/schemas.py`. -/
inductive Verdict
  | NO_INCIDENT
  | POSSIBLE_FALL
  | CONFIRMED_FALL
  | FALSE_ALARM
  deriving DecidableEq, Repr

def Verdict.value : Verdict → String
  | .NO_INCIDENT => "NO_INCIDENT"
  | .POSSIBLE_FALL => "POSSIBLE_FALL"
  | .CONFIRMED_FALL => "CONFIRMED_FALL"
  | .FALSE_ALARM => "FALSE_ALARM"

/-- `PlanAction` pydantic model: an action type, a delay in seconds and a
params dict (modelled as an association list of integer-valued params,
which is all the code ever stores in it). -/
structure PlanAction where
  type : ActionType
  delay_s : ℚ := 0
  params : List (String × ℤ) := []
  deriving DecidableEq, Repr

/-- `PlannerPlan` pydantic model. -/
structure PlannerPlan where
  verdict : Verdict := .POSSIBLE_FALL
  severity_seed : ℤ := 3
  confidence : ℚ := 0.5
  reasons : List String := []
  actions : List PlanAction := []
  replan_interval_s : ℚ := 10.0
  deriving DecidableEq, Repr

/-! ## Severity math (backend/core/severity.py) -/

/-- `compute_severity` from `backend/core/severity.py`, literally
transcribed: the `if/elif/elif` chain on `time_down_s`, then the
stillness bump, the recovery decrement, the ack decrement and the
final clamp. -/
def compute_severity (severity_seed : ℤ) (time_down_s : ℚ)
    (stillness_score : ℚ) (motion_energy : ℚ) (acknowledged : Bool) : ℤ :=
  let sev := severity_seed
  let sev :=
    if time_down_s > 120 then max sev 5
    else if time_down_s > 45 then max sev 4
    else if time_down_s > 15 then max sev 3
    else sev
  let sev :=
    if stillness_score > 0.9 ∧ time_down_s > 30 then min (sev + 1) 5 else sev
  let sev :=
    if motion_energy > 0.5 ∧ stillness_score < 0.3 then max (sev - 1) 1 else sev
  let sev := if acknowledged then max (sev - 1) 1 else sev
  max 1 (min 5 sev)

/-- Reference computation written from the specification's words for
claim C1: raise to at least 3 / 4 / 5 by three independent threshold
steps, then bump, recover, ack-decrement, and clamp to 1..5. -/
def severity_reference (seed : ℤ) (t_down_s : ℚ)
    (stillness : ℚ) (motion : ℚ) (acked : Bool) : ℤ :=
  let s := seed
  let s := if t_down_s > 15 then max s 3 else s
  let s := if t_down_s > 45 then max s 4 else s
  let s := if t_down_s > 120 then max s 5 else s
  let s := if stillness > 0.9 ∧ t_down_s > 30 then min (s + 1) 5 else s
  let s := if motion > 0.5 ∧ stillness < 0.3 then max (s - 1) 1 else s
  let s := if acked then max (s - 1) 1 else s
  max 1 (min 5 s)

/-- `compute_risk_score` from `backend/core/severity.py`.  The
`bed_state_scores` dict lookup with default `0.1` is transcribed as a
match on the seven listed keys. -/
def compute_risk_score (bed_state : String) (stability : String)
    (hour_of_day : ℤ) (base_score : ℚ := 0) : ℚ :=
  let score := base_score
  let bedScore : ℚ :=
    if bed_state = "IN_BED" then 0.0
    else if bed_state = "NEAR_EDGE" then 0.2
    else if bed_state = "SITTING_EDGE" then 0.4
    else if bed_state = "LEGS_OVER" then 0.6
    else if bed_state = "STANDING_NEAR_BED" then 0.3
    else if bed_state = "OUT_OF_BED" then 0.1
    else if bed_state = "UNKNOWN" then 0.15
    else 0.1
  let score := score + bedScore
  let score :=
    if stability = "UNSTABLE" then score + 0.25
    else if stability = "UNKNOWN" then score + 0.1
    else score
  let score := if 22 ≤ hour_of_day ∨ hour_of_day ≤ 5 then score + 0.1 else score
  max 0 (min 1 score)

/-- The seven bed states with a listed score in `compute_risk_score`. -/
def listedBedStates : List String :=
  ["IN_BED", "NEAR_EDGE", "SITTING_EDGE", "LEGS_OVER",
   "STANDING_NEAR_BED", "OUT_OF_BED", "UNKNOWN"]

/-! ## SafetyGuard (backend/core/guard.py)

The module-level dicts `_last_contact_time` and `_primary_call_counts`
are modelled as a `GuardState` record of maps keyed by camera id, and
`time.time()` is passed in explicitly as the call's timestamp `now`. -/

/-- The two process-wide guard dicts, keyed by `camera_id`. -/
structure GuardState where
  lastContact : String → Option ℚ
  primaryCallCounts : String → Option ℤ

/-- Guard state at process start: both dicts empty. -/
def GuardState.init : GuardState := ⟨fun _ => none, fun _ => none⟩

/-- `_last_contact_time[camera_id] = t`. -/
def GuardState.setLastContact (st : GuardState) (cam : String) (t : ℚ) : GuardState :=
  { st with lastContact := fun c => if c = cam then some t else st.lastContact c }

/-- `_primary_call_counts[camera_id] = _primary_call_counts.get(camera_id, 0) + 1`. -/
def GuardState.incCallCount (st : GuardState) (cam : String) : GuardState :=
  { st with primaryCallCounts :=
      fun c => if c = cam then some ((st.primaryCallCounts cam).getD 0 + 1)
               else st.primaryCallCounts c }

/-- `reset_camera_state` from `backend/core/guard.py`: pops the camera
from both dicts. -/
def reset_camera_state (st : GuardState) (camera_id : String) : GuardState :=
  ⟨fun c => if c = camera_id then none else st.lastContact c,
   fun c => if c = camera_id then none else st.primaryCallCounts c⟩

/-- One entry of the `decisions` list built by `approve_plan`:
the dict `{"action": action.type.value, "approved": ..., "reason": ...}`. -/
structure GuardDecision where
  action : String
  approved : Bool
  reason : String
  deriving DecidableEq, Repr

/-- The arguments of one `approve_plan` call, together with the value
`now = time.time()` observed at its entry. -/
structure GuardCall where
  actions : List PlanAction
  camera_id : String
  acknowledged : Bool
  voice_enabled : Bool
  sms_enabled : Bool
  escalation_stage : ℤ
  cooldown_contact_s : ℤ := 5
  max_primary_call_attempts : ℤ := 2
  max_escalation_stage : ℤ := 2
  now : ℚ

/-- Membership in the contact-class tuple
`(SEND_SMS_PRIMARY, START_VOICE_CALL_PRIMARY, SEND_LOW_PRIORITY_HEADSUP)`. -/
def contactClass : ActionType → Bool
  | .SEND_SMS_PRIMARY => true
  | .START_VOICE_CALL_PRIMARY => true
  | .SEND_LOW_PRIORITY_HEADSUP => true
  | _ => false

/-- Membership in the tuple that refreshes `_last_contact_time` on
approval (contact class plus `ESCALATE_TO_BACKUP`). -/
def touchesLastContact (t : ActionType) : Bool :=
  contactClass t || t == .ESCALATE_TO_BACKUP

/-- The body of `approve_plan`'s `for action in actions:` loop for one
action: each `continue`-guarded rejection becomes an `else if` arm, and
the two post-approval dict updates become the final state writes. -/
def guardStep (c : GuardCall) (st : GuardState) (a : PlanAction) :
    GuardDecision × GuardState :=
  if a.type = .CLOSE_INCIDENT then (⟨a.type.value, true, ""⟩, st)
  else if a.type = .CANCEL_ESCALATION then (⟨a.type.value, true, ""⟩, st)
  else if contactClass a.type = true
      ∧ c.now - (st.lastContact c.camera_id).getD 0 < (c.cooldown_contact_s : ℚ) then
    (⟨a.type.value, false,
      "Contact cooldown: " ++ toString c.cooldown_contact_s ++ "s not elapsed"⟩, st)
  else if a.type = .START_VOICE_CALL_PRIMARY ∧ c.voice_enabled = false then
    (⟨a.type.value, false, "Voice disabled for this camera"⟩, st)
  else if a.type = .START_VOICE_CALL_PRIMARY
      ∧ (st.primaryCallCounts c.camera_id).getD 0 ≥ c.max_primary_call_attempts then
    (⟨a.type.value, false,
      "Max primary call attempts (" ++ toString c.max_primary_call_attempts ++ ") reached"⟩, st)
  else if a.type = .SEND_SMS_PRIMARY ∧ c.sms_enabled = false then
    (⟨a.type.value, false, "SMS disabled for this camera"⟩, st)
  else if a.type = .ESCALATE_TO_BACKUP ∧ c.acknowledged = true then
    (⟨a.type.value, false, "Already acknowledged – no backup escalation"⟩, st)
  else if a.type = .ESCALATE_TO_BACKUP ∧ c.escalation_stage ≥ c.max_escalation_stage then
    (⟨a.type.value, false,
      "Max escalation stage (" ++ toString c.max_escalation_stage ++ ") reached"⟩, st)
  else
    let st1 := if touchesLastContact a.type then st.setLastContact c.camera_id c.now else st
    let st2 := if a.type = .START_VOICE_CALL_PRIMARY then st1.incCallCount c.camera_id else st1
    (⟨a.type.value, true, ""⟩, st2)

/-- The loop of `approve_plan`, threading the guard state and building
`approved` and `decisions` in order. -/
def approvePlanGo (c : GuardCall) (st : GuardState) :
    List PlanAction → List PlanAction × List GuardDecision × GuardState
  | [] => ([], [], st)
  | a :: rest =>
    let s := guardStep c st a
    let r := approvePlanGo c s.2 rest
    (if s.1.approved then a :: r.1 else r.1, s.1 :: r.2.1, r.2.2)

/-- `approve_plan` from `backend/core/guard.py`: returns
`(approved_actions, guard_decisions)` and the updated guard state. -/
def approve_plan (c : GuardCall) (st : GuardState) :
    List PlanAction × List GuardDecision × GuardState :=
  approvePlanGo c st c.actions

/-- Reference approval condition written from claim C2's words:
CLOSE_INCIDENT and CANCEL_ESCALATION always; contact-class only when
the cooldown has elapsed; voice additionally only when enabled and the
per-camera call count is below the maximum; SMS additionally only when
enabled; ESCALATE_TO_BACKUP only when not acknowledged and below the
maximum escalation stage.  The claim states no rejection rule for the
remaining two action types, which the code always approves. -/
def claim_approves (c : GuardCall) (st : GuardState) : ActionType → Bool
  | .CLOSE_INCIDENT => true
  | .CANCEL_ESCALATION => true
  | .SEND_SMS_PRIMARY =>
      decide ((c.cooldown_contact_s : ℚ) ≤ c.now - (st.lastContact c.camera_id).getD 0)
        && c.sms_enabled
  | .START_VOICE_CALL_PRIMARY =>
      decide ((c.cooldown_contact_s : ℚ) ≤ c.now - (st.lastContact c.camera_id).getD 0)
        && c.voice_enabled
        && decide ((st.primaryCallCounts c.camera_id).getD 0 < c.max_primary_call_attempts)
  | .SEND_LOW_PRIORITY_HEADSUP =>
      decide ((c.cooldown_contact_s : ℚ) ≤ c.now - (st.lastContact c.camera_id).getD 0)
  | .ESCALATE_TO_BACKUP =>
      !c.acknowledged && decide (c.escalation_stage < c.max_escalation_stage)
  | .INCREASE_CHECK_RATE => true
  | .REQUEST_STRONG_VERIFY => true

/-- Reference state update written from claim C2's words: on approval
of a contact-class or ESCALATE_TO_BACKUP action, `last_contact[camera]`
is set to the call's timestamp; on approval of START_VOICE_CALL_PRIMARY,
`primary_call_count[camera]` is incremented; otherwise unchanged. -/
def claim_update (c : GuardCall) (st : GuardState) (t : ActionType)
    (approved : Bool) : GuardState :=
  let st1 := if approved && (contactClass t || t == .ESCALATE_TO_BACKUP)
             then st.setLastContact c.camera_id c.now else st
  if approved && t == .START_VOICE_CALL_PRIMARY
  then st1.incCallCount c.camera_id else st1

/-- Reference loop written from claim C2's words: one approval flag per
action, approved actions kept in order, state updated per `claim_update`. -/
def approveReference (c : GuardCall) (st : GuardState) :
    List PlanAction → List PlanAction × List Bool × GuardState
  | [] => ([], [], st)
  | a :: rest =>
    let ok := claim_approves c st a.type
    let r := approveReference c (claim_update c st a.type ok) rest
    (if ok then a :: r.1 else r.1, ok :: r.2.1, r.2.2)

/-! ## Guard traces: sequences of `approve_plan` calls and resets -/

/-- One event touching the process-wide guard state: an `approve_plan`
call or a `reset_camera_state` call. -/
inductive GuardOp
  | plan (c : GuardCall)
  | reset (camera_id : String)

/-- Effect of one guard event on the guard state. -/
def runOp (st : GuardState) : GuardOp → GuardState
  | .plan c => (approve_plan c st).2.2
  | .reset cam => reset_camera_state st cam

/-- Guard state reached after the first `i` events of a trace, starting
from the empty dicts of process start. -/
def stateAt (ops : List GuardOp) (i : ℕ) : GuardState :=
  (ops.take i).foldl runOp GuardState.init

/-- The `approve_plan` call at trace position `i`, when there is one. -/
def callAt (ops : List GuardOp) (i : ℕ) : Option GuardCall :=
  match ops.get? i with
  | some (.plan c) => some c
  | _ => none

/-- The decisions produced by the `approve_plan` call at position `i`. -/
def decisionsAt (ops : List GuardOp) (i : ℕ) : List GuardDecision :=
  match callAt ops i with
  | some c => (approve_plan c (stateAt ops i)).2.1
  | none => []

/-- Whether the `k`-th decision of the call at position `i` is approved. -/
def approvedAt (ops : List GuardOp) (i k : ℕ) : Bool :=
  ((decisionsAt ops i).get? k).elim false GuardDecision.approved

/-- Concrete guard call used to instantiate the cooldown-exclusion
theorem: one SMS on camera `cam1` at time 100. -/
def w6c1 : GuardCall :=
  { actions := [{ type := .SEND_SMS_PRIMARY }], camera_id := "cam1",
    acknowledged := false, voice_enabled := true, sms_enabled := true,
    escalation_stage := 0, now := 100 }

/-- Concrete guard call: one SMS on camera `cam1` at time 102, inside
the 5-second cooldown window opened by `w6c1`. -/
def w6c2 : GuardCall :=
  { actions := [{ type := .SEND_SMS_PRIMARY }], camera_id := "cam1",
    acknowledged := false, voice_enabled := true, sms_enabled := true,
    escalation_stage := 0, now := 102 }

/-- Concrete two-call guard trace for the cooldown-exclusion witness. -/
def w6ops : List GuardOp := [.plan w6c1, .plan w6c2]

/-! ## Incident store (backend/store/models.py)

One row of the `incidents` table, with the columns the claims touch
(`created_at`/`updated_at` timestamps and the free-text `summary_text`
are not modelled; no claim mentions them). -/

structure IncidentRec where
  id : String
  camera_id : String
  status : String := "ACTIVE"
  verdict : String := "POSSIBLE_FALL"
  severity_seed : ℤ := 3
  severity_current : ℤ := 3
  risk_score : ℚ := 0.5
  confidence : ℚ := 0
  time_down_s : ℚ := 0
  acknowledged : Bool := false
  ack_by : Option String := none
  escalation_stage : ℤ := 0
  plan_version : ℤ := 0
  reasons_current : List String := []
  language : String := "en"
  frames_b64 : List String := []
  deriving Repr

/-- The `select(Incident).where(Incident.camera_id == cam,
Incident.status == "ACTIVE")` dedup query of `handle_incident`. -/
def findActiveIncident (db : List IncidentRec) (cam : String) : Option IncidentRec :=
  db.find? (fun i => i.camera_id == cam && i.status == "ACTIVE")

/-- `select(Incident).where(Incident.id == incident_id)`. -/
def findIncident (db : List IncidentRec) (incident_id : String) : Option IncidentRec :=
  db.find? (fun i => i.id == incident_id)

/-! ## Planner (backend/core/planner.py) -/

/-- `_fallback_plan` from `backend/core/planner.py`, literally: severity
4 above motion 0.8 else 3, SMS immediately, voice after 1 s when enabled
and severe, fixed reasons string and a 5 s replan interval. -/
def fallback_plan (motion_energy : ℚ) (voice_enabled : Bool) : PlannerPlan :=
  let sev : ℤ := if motion_energy > 0.8 then 4 else 3
  let actions : List PlanAction :=
    [{ type := .SEND_SMS_PRIMARY, delay_s := 0 }]
      ++ (if voice_enabled ∧ sev ≥ 4
          then [{ type := .START_VOICE_CALL_PRIMARY, delay_s := 1.0 }] else [])
  { verdict := .POSSIBLE_FALL,
    severity_seed := sev,
    confidence := 0.3,
    reasons := ["Fallback plan: Gemini unavailable or returned invalid response"],
    actions := actions,
    replan_interval_s := 5.0 }

/-- The plan-acquisition phase of `handle_incident`: the external
planner call composed with `_parse_plan` is abstracted as the oracle
`planner` (`none` = parse failure or exception); the first attempt sends
`frames[:4]`, a single retry sends `frames[:2]`, and persistent failure
falls back to `_fallback_plan`. -/
def planWithRetry (planner : List String → Option PlannerPlan)
    (frames : List String) (motion_energy : ℚ) (voice_enabled : Bool) : PlannerPlan :=
  match planner (frames.take 4) with
  | some p => p
  | none =>
    match planner (frames.take 2) with
    | some p => p
    | none => fallback_plan motion_energy voice_enabled

/-- The per-incident update block of `handle_incident` once a plan is in
hand: bump `plan_version` and overwrite verdict, severity seed/current,
confidence and reasons from the plan. -/
def applyPlanToIncident (inc : IncidentRec) (plan : PlannerPlan) : IncidentRec :=
  { inc with
    plan_version := inc.plan_version + 1,
    severity_seed := plan.severity_seed,
    severity_current := plan.severity_seed,
    verdict := plan.verdict.value,
    confidence := plan.confidence,
    reasons_current := plan.reasons }

/-- The incident dedup-and-update core of `handle_incident`: reuse the
ACTIVE incident on the camera when there is one (without touching its
stored frames), otherwise insert a fresh incident seeded 3/3 with risk
0.8 and the first four frames; then apply the plan's fields to the
chosen incident.  Returns the new table and the id of the incident
used. -/
def handleIncidentDb (db : List IncidentRec) (camera_id : String)
    (frames : List String) (language : String) (newId : String)
    (plan : PlannerPlan) : List IncidentRec × String :=
  match findActiveIncident db camera_id with
  | some inc =>
      (db.map (fun i => if i.id = inc.id then applyPlanToIncident i plan else i), inc.id)
  | none =>
      let newInc : IncidentRec :=
        { id := newId, camera_id := camera_id, severity_seed := 3,
          severity_current := 3, risk_score := 0.8,
          frames_b64 := frames.take 4, language := language }
      ((db ++ [newInc]).map
        (fun i => if i.id = newId then applyPlanToIncident i plan else i), newId)

/-! ## Incident endpoints (backend/api/incidents.py) -/

/-- `POST /api/incidents/{id}/ack`: no status check — any found incident
is set to ACKED/acknowledged with the caller's `ack_by`, the replan loop
is cancelled (not modelled) and the camera's guard state is reset.
Returns `none` for the 404 case, otherwise the success payload
`("acknowledged", incident_id)`. -/
def acknowledge_incident (db : List IncidentRec) (incident_id : String)
    (ack_by : String) (gst : GuardState) :
    List IncidentRec × GuardState × Option (String × String) :=
  match findIncident db incident_id with
  | none => (db, gst, none)
  | some inc =>
      (db.map (fun i => if i.id = incident_id
          then { i with acknowledged := true, ack_by := some ack_by, status := "ACKED" }
          else i),
       reset_camera_state gst inc.camera_id,
       some ("acknowledged", incident_id))

/-- `POST /api/incidents/{id}/false_alarm`: close the incident as a
false alarm and reset the camera's guard state. -/
def false_alarm (db : List IncidentRec) (incident_id : String)
    (gst : GuardState) :
    List IncidentRec × GuardState × Option (String × String) :=
  match findIncident db incident_id with
  | none => (db, gst, none)
  | some inc =>
      (db.map (fun i => if i.id = incident_id
          then { i with status := "CLOSED", verdict := "FALSE_ALARM", acknowledged := true }
          else i),
       reset_camera_state gst inc.camera_id,
       some ("closed", "false_alarm"))

/-! ## Twilio DTMF webhook (backend/api/twilio.py) -/

/-- `POST /twilio/dtmf/{incident_id}` from `backend/api/twilio.py`:
digit 1 acks and resets guard state, digit 2 acks as will-call without
resetting guard state, digit 3 bumps the escalation stage (capped at 2),
digit 4 closes as false alarm and resets guard state.  `digit` stands
for the posted `Digits` form field after the code's `.strip()` (pure
whitespace removal).  The returned string is the `<Say>` message. -/
def dtmf_webhook (db : List IncidentRec) (incident_id : String)
    (digit : String) (gst : GuardState) :
    List IncidentRec × GuardState × String :=
  match findIncident db incident_id with
  | none => (db, gst, "Incident not found.")
  | some inc =>
      if digit = "1" then
        (db.map (fun i => if i.id = incident_id
            then { i with acknowledged := true, ack_by := some ("voice_dtmf"),
                          status := "ACKED" } else i),
         reset_camera_state gst inc.camera_id,
         "Acknowledged. Escalation cancelled. Thank you.")
      else if digit = "2" then
        (db.map (fun i => if i.id = incident_id
            then { i with acknowledged := true, ack_by := some ("voice_dtmf_will_call"),
                          status := "ACKED" } else i),
         gst,
         "Noted. You will call the monitored person. Escalation paused.")
      else if digit = "3" then
        (db.map (fun i => if i.id = incident_id
            then { i with escalation_stage := min (i.escalation_stage + 1) 2 } else i),
         gst,
         "Escalating to backup contact now.")
      else if digit = "4" then
        (db.map (fun i => if i.id = incident_id
            then { i with status := "CLOSED", verdict := "FALSE_ALARM",
                          acknowledged := true } else i),
         reset_camera_state gst inc.camera_id,
         "Marked as false alarm. Incident closed.")
      else (db, gst, "Invalid option. Goodbye.")

/-! ## Idle detection and config application (backend/core/idle.py) -/

/-- One row of the `cameras` table, with the columns idle detection and
config application touch. -/
structure CameraRec where
  id : String
  risk_score : ℚ := 0.0
  voice_enabled : Bool := true
  sms_enabled : Bool := true
  config : List (String × ℚ) := []
  deriving Repr

/-- Dict lookup on an association-list config. -/
def configGet (cfg : List (String × ℚ)) (k : String) : Option ℚ :=
  (cfg.find? (fun kv => kv.1 == k)).map Prod.snd

/-- Python's `{**old, **patch}`: old keys in place (patched values win),
then patch keys absent from old, in patch order. -/
def mergeDict (old patch : List (String × ℚ)) : List (String × ℚ) :=
  old.map (fun kv =>
    match patch.find? (fun p => p.1 == kv.1) with
    | some p => (kv.1, p.2)
    | none => kv)
  ++ patch.filter (fun p => (old.find? (fun kv => kv.1 == p.1)).isNone)

/-- `is_camera_idle` from `backend/core/idle.py`: the camera exists,
its risk score is not above 0.3 and it has no ACTIVE incident. -/
def is_camera_idle (cams : List CameraRec) (incs : List IncidentRec)
    (camera_id : String) : Bool :=
  match cams.find? (fun c => c.id == camera_id) with
  | none => false
  | some cam =>
    if cam.risk_score > 0.3 then false
    else if (findActiveIncident incs camera_id).isSome then false
    else true

/-- The `allowed_keys` set in `apply_config_suggestions`
(`backend/core/idle.py`, five keys — `check_interval_s` is absent). -/
def allowed_keys : List String :=
  ["motion_spike_threshold", "stillness_threshold",
   "risk_threshold_low", "risk_threshold_high",
   "escalation_delay_s"]

/-- The six recognized config keys of the spec's §3 camera-config
mapping, written from the claim's words. -/
def claimRecognizedKeys : List String :=
  ["motion_spike_threshold", "stillness_threshold",
   "risk_threshold_low", "risk_threshold_high",
   "escalation_delay_s", "check_interval_s"]

/-- One config suggestion read from Snowflake. -/
structure Suggestion where
  camera_id : String := ""
  config_json : List (String × ℚ) := []
  reason : String := ""
  confidence : ℚ := 0
  deriving Repr

/-- The per-suggestion body of `apply_config_suggestions`: skip when the
camera id is empty, the camera is not idle, the patch is empty or has no
allowed key, or the camera has vanished; otherwise merge the filtered
patch into `camera.config` (the ConfigUpdate audit row and Snowflake
write-back are not modelled). -/
def apply_one_suggestion (cams : List CameraRec) (incs : List IncidentRec)
    (s : Suggestion) : List CameraRec :=
  if s.camera_id = "" then cams
  else if is_camera_idle cams incs s.camera_id = false then cams
  else if s.config_json = [] then cams
  else
    let filtered := s.config_json.filter (fun kv => allowed_keys.contains kv.1)
    if filtered = [] then cams
    else
      match cams.find? (fun c => c.id == s.camera_id) with
      | none => cams
      | some _ =>
          cams.map (fun c => if c.id = s.camera_id
            then { c with config := mergeDict c.config filtered } else c)

/-! ## Action executor (backend/core/executor.py) and the video-upload
plan generator (backend/api/vision.py) -/

/-- `_run_action` from `backend/core/executor.py`.  The Twilio client is
abstracted as the oracles `sms to body → sid` and `call to incident_id
→ sid`; the returned string is `_run_action`'s result and the returned
table reflects the CLOSE_INCIDENT branch.  When the incident of a
CLOSE_INCIDENT is not found, the code skips the update silently and
still returns "Incident closed". -/
def run_action (sms call : String → String → String) (a : PlanAction)
    (incident_id camera_id primary_contact backup_contact summary_text : String)
    (db : List IncidentRec) : String × List IncidentRec :=
  match a.type with
  | .SEND_SMS_PRIMARY =>
      let body := "🚨 CamGuard Alert: "
        ++ (if summary_text = "" then ("Possible fall detected.") else summary_text)
        ++ " Incident: " ++ incident_id.take 8
      ("SMS sent: " ++ sms primary_contact body, db)
  | .SEND_LOW_PRIORITY_HEADSUP =>
      let body := "ℹ️ CamGuard Heads-up: Risk score rising for camera "
        ++ camera_id.take 8 ++ ". " ++ summary_text
      ("Heads-up SMS sent: " ++ sms primary_contact body, db)
  | .START_VOICE_CALL_PRIMARY =>
      ("Voice call started: " ++ call primary_contact incident_id, db)
  | .ESCALATE_TO_BACKUP =>
      let body := "🚨 CamGuard ESCALATION: "
        ++ (if summary_text = "" then ("Fall not acknowledged.") else summary_text)
        ++ " Incident: " ++ incident_id.take 8
      ("Escalated to backup: SMS=" ++ sms backup_contact body
        ++ ", Call=" ++ call backup_contact incident_id, db)
  | .CANCEL_ESCALATION => ("Escalation cancelled", db)
  | .CLOSE_INCIDENT =>
      match findIncident db incident_id with
      | some _ =>
          ("Incident closed",
           db.map (fun i => if i.id = incident_id then { i with status := "CLOSED" } else i))
      | none => ("Incident closed", db)
  | .INCREASE_CHECK_RATE =>
      ("Check rate increased to "
        ++ toString ((a.params.find? (fun p => p.1 == "interval_s")).elim (10 : ℤ) Prod.snd)
        ++ "s", db)
  | .REQUEST_STRONG_VERIFY => ("Strong verification requested", db)

/-- A timeline event row, reduced to the fields the claims mention. -/
structure TimelineEvent where
  incident_id : String
  camera_id : String
  kind : String
  reason : String := ""
  deriving DecidableEq, Repr

/-- One row of the `incident_plans` table. -/
structure IncidentPlanRec where
  id : String
  incident_id : String
  version : ℤ
  model_used : String
  verdict : String
  severity_seed : ℤ
  confidence : ℚ
  reasons : List String
  actions : List PlanAction
  replan_interval_s : ℚ
  deriving Repr

/-- The database phase of `_generate_plan_for_incident` from
`backend/api/vision.py` (lines 229-284): build the fixed plan for the
detected severity, and inside the transaction either emit a PLAN_FAILED
event and return (incident missing) or bump `plan_version` and insert
the IncidentPlan row.  The later Snowflake write, PLAN_CREATED event and
guard/execute hand-off happen only on the success path and are outside
the claim. -/
def generate_plan_for_incident (db : List IncidentRec)
    (plans : List IncidentPlanRec) (plan_id inc_id camera_id : String)
    (severity : ℤ) (verdict : Verdict) :
    List IncidentRec × List IncidentPlanRec × List TimelineEvent :=
  let actions : List PlanAction :=
    if severity ≥ 4 then
      [{ type := .SEND_SMS_PRIMARY, delay_s := 0 },
       { type := .START_VOICE_CALL_PRIMARY, delay_s := 1.0 }]
    else
      [{ type := .SEND_SMS_PRIMARY, delay_s := 0 },
       { type := .INCREASE_CHECK_RATE, delay_s := 0, params := [("interval_s", 10)] }]
  let plan : PlannerPlan :=
    { verdict := verdict, severity_seed := severity, confidence := 0.75,
      reasons := ["Video upload detection: " ++ verdict.value],
      actions := actions, replan_interval_s := 10.0 }
  match findIncident db inc_id with
  | none =>
      (db, plans,
       [{ incident_id := inc_id, camera_id := camera_id,
          kind := "PLAN_FAILED", reason := "Incident not found" }])
  | some inc =>
      let version := inc.plan_version + 1
      (db.map (fun i => if i.id = inc_id
          then { i with plan_version := i.plan_version + 1 } else i),
       plans ++ [{ id := plan_id, incident_id := inc_id, version := version,
                   model_used := "video_upload", verdict := plan.verdict.value,
                   severity_seed := plan.severity_seed, confidence := plan.confidence,
                   reasons := plan.reasons, actions := plan.actions,
                   replan_interval_s := plan.replan_interval_s }],
       [])

/-! ## Concrete instances used by witnesses and counterexamples -/

/-- An ACTIVE incident on camera `cam-c4` whose severity has ticked up
to 5. -/
def c4inc : IncidentRec :=
  { id := "inc-c4", camera_id := "cam-c4", severity_seed := 5, severity_current := 5 }

/-- A plan whose planner-chosen seed is 3, arriving on a duplicate
trigger. -/
def c4plan : PlannerPlan := { severity_seed := 3 }

/-- A CLOSED incident, for the ack-on-closed scenario. -/
def c5inc : IncidentRec :=
  { id := "inc-c5", camera_id := "cam-c5", status := "CLOSED" }

/-- An ACTIVE incident on camera `cam-c7`. -/
def c7inc : IncidentRec := { id := "inc-c7", camera_id := "cam-c7" }

/-- Guard state with both per-camera entries populated for `cam-c7`. -/
def c7gst : GuardState :=
  (GuardState.init.setLastContact ("cam-c7") 50).incCallCount ("cam-c7")

/-- An idle camera (risk 0.2, no incident) with an empty config. -/
def c8cam : CameraRec := { id := "cam-c8", risk_score := 0.2 }

/-- A suggestion whose only key is `check_interval_s`. -/
def c8sugg : Suggestion :=
  { camera_id := "cam-c8", config_json := [("check_interval_s", 10)] }

/-- A suggestion with one allowed key and one unrecognized key. -/
def c8sugg2 : Suggestion :=
  { camera_id := "cam-c8",
    config_json := [("stillness_threshold", 0.9), ("bogus_key", 1)] }

/-- A non-idle camera (risk 0.9) with the same id, for the only-when-idle
direction. -/
def c8camBusy : CameraRec := { id := "cam-c8", risk_score := 0.9 }

end CamGuard

namespace CamGuard

/-! ## Theorems for C1 and C10 -/

set_option maxHeartbeats 1600000 in
/-- C1: for every integer seed, rational inputs and ack flag,
`compute_severity` returns an integer in `[1,5]` equal to the
specification's reference computation (raise to at least 3/4/5 by
time-down thresholds, add 1 capped at 5 on stillness, subtract 1
floored at 1 on motion recovery, subtract 1 on ack, clamp 1..5). -/
theorem compute_severity_correct (seed : ℤ) (t_down_s stillness motion : ℚ)
    (acked : Bool) :
    compute_severity seed t_down_s stillness motion acked
      = severity_reference seed t_down_s stillness motion acked
    ∧ 1 ≤ compute_severity seed t_down_s stillness motion acked
    ∧ compute_severity seed t_down_s stillness motion acked ≤ 5 := by
  refine ⟨?_, ?_, ?_⟩ <;>
    (simp only [compute_severity, severity_reference]; split_ifs <;> omega)

/-- C10: `compute_risk_score` is total by construction in this embedding
and always lands in `[0,1]`; a bed state outside the seven listed ones
contributes the default `0.1`, i.e. the score agrees with the one
computed for any other unlisted bed state. -/
theorem compute_risk_score_total (bed_state stability : String)
    (hour_of_day : ℤ) (base_score : ℚ) :
    (0 ≤ compute_risk_score bed_state stability hour_of_day base_score
      ∧ compute_risk_score bed_state stability hour_of_day base_score ≤ 1)
    ∧ (bed_state ∉ listedBedStates →
        compute_risk_score bed_state stability hour_of_day base_score
          = compute_risk_score ("SOME_OTHER_STATE") stability hour_of_day base_score) := by
  constructor
  · simp only [compute_risk_score]
    exact ⟨le_max_left 0 _, max_le (by norm_num) (min_le_left 1 _)⟩
  · intro hmem
    simp only [listedBedStates, List.mem_cons, List.not_mem_nil, or_false] at hmem
    push_neg at hmem
    obtain ⟨h1, h2, h3, h4, h5, h6, h7⟩ := hmem
    unfold compute_risk_score
    simp [h1, h2, h3, h4, h5, h6, h7]

/-- Witness for C10's conditional part at a concrete unlisted bed state. -/
theorem compute_risk_score_total_witness :
    ("WEIRD" : String) ∉ listedBedStates
    ∧ compute_risk_score ("WEIRD") ("STABLE") 3 (1/2)
        = compute_risk_score ("SOME_OTHER_STATE") ("STABLE") 3 (1/2) := by
  refine ⟨by decide, ?_⟩
  exact (compute_risk_score_total ("WEIRD") ("STABLE") 3 (1/2)).2 (by decide)

/-! ## Theorems for C2 -/

/-- The decision built by one loop iteration records the action's type
value. -/
lemma guardStep_action (c : GuardCall) (st : GuardState) (a : PlanAction) :
    (guardStep c st a).1.action = a.type.value := by
  unfold guardStep
  split_ifs <;> rfl

set_option maxHeartbeats 1600000 in
/-- One loop iteration approves exactly per the claim's conditions. -/
lemma guardStep_approved (c : GuardCall) (st : GuardState) (a : PlanAction) :
    (guardStep c st a).1.approved = claim_approves c st a.type := by
  rcases a with ⟨t, d, p⟩
  cases t <;>
    simp [guardStep, claim_approves, contactClass, touchesLastContact] <;>
    split_ifs <;>
    simp_all [not_lt, ge_iff_le, not_le]

set_option maxHeartbeats 1600000 in
/-- One loop iteration updates the guard state exactly per the claim's
words, given its own approval flag. -/
lemma guardStep_state (c : GuardCall) (st : GuardState) (a : PlanAction) :
    (guardStep c st a).2 = claim_update c st a.type (guardStep c st a).1.approved := by
  rcases a with ⟨t, d, p⟩
  cases t <;>
    simp [guardStep, claim_update, contactClass, touchesLastContact] <;>
    split_ifs <;>
    simp_all [not_lt, ge_iff_le, not_le]

/-- C2: `approve_plan` produces exactly one decision per action, in the
input order, each decision recording the action's type value, a boolean
`approved` and a string `reason`; the approval flags, the approved list
and the final guard state agree with the reference computation written
from the claim (approve iff CLOSE/CANCEL always, contact class iff
cooldown elapsed, voice additionally iff enabled and under the call-count
cap, SMS additionally iff enabled, ESCALATE_TO_BACKUP iff unacknowledged
and under the stage cap; on approval, contact-class and escalate actions
stamp `last_contact[camera]` with the call's timestamp and voice
increments `primary_call_count[camera]`); the approved actions are a
subsequence of the input in the original order. -/
theorem approve_plan_correct (c : GuardCall) (st : GuardState) :
    ((approve_plan c st).2.1.map GuardDecision.action
        = c.actions.map (fun a => a.type.value))
    ∧ ((approve_plan c st).2.1.map GuardDecision.approved
        = (approveReference c st c.actions).2.1)
    ∧ ((approve_plan c st).1 = (approveReference c st c.actions).1)
    ∧ ((approve_plan c st).2.2 = (approveReference c st c.actions).2.2)
    ∧ (approve_plan c st).1.Sublist c.actions := by
  unfold approve_plan
  generalize c.actions = as
  induction as generalizing st with
  | nil => simp [approvePlanGo, approveReference]
  | cons a rest ih =>
    have hact := guardStep_action c st a
    have happ := guardStep_approved c st a
    have hst := guardStep_state c st a
    obtain ⟨ih1, ih2, ih3, ih4, ih5⟩ := ih ((guardStep c st a).2)
    have hstep : claim_update c st a.type (claim_approves c st a.type)
        = (guardStep c st a).2 := by rw [← happ, ← hst]
    simp only [approvePlanGo, approveReference, hstep, List.map_cons]
    refine ⟨?_, ?_, ?_, ?_, ?_⟩
    · rw [hact, ih1]
    · rw [happ, ih2]
    · rw [happ, ih3]
    · exact ih4
    · by_cases hb : (guardStep c st a).1.approved = true
      · simpa [hb] using ih5.cons₂ a
      · simp only [Bool.not_eq_true] at hb
        simpa [hb] using ih5.cons a

/-! ## Lemmas towards C6: the contact cooldown is exclusive -/

/-- A loop iteration either leaves `_last_contact_time[x]` unchanged or
stamps it with the call's `now`. -/
lemma guardStep_lastContact (c : GuardCall) (st : GuardState) (a : PlanAction)
    (x : String) :
    ((guardStep c st a).2).lastContact x = st.lastContact x
    ∨ ((guardStep c st a).2).lastContact x = some c.now := by
  rw [guardStep_state]
  unfold claim_update GuardState.setLastContact GuardState.incCallCount
  by_cases hx : x = c.camera_id <;> split_ifs <;> simp [hx]

/-- Over a whole `approve_plan` loop, `_last_contact_time[x]` is either
unchanged or stamped with the call's `now`. -/
lemma approvePlanGo_lastContact (c : GuardCall) (st : GuardState)
    (as : List PlanAction) (x : String) :
    ((approvePlanGo c st as).2.2).lastContact x = st.lastContact x
    ∨ ((approvePlanGo c st as).2.2).lastContact x = some c.now := by
  induction as generalizing st with
  | nil => left; rfl
  | cons a rest ih =>
    simp only [approvePlanGo]
    rcases ih ((guardStep c st a).2) with h | h
    · rw [h]; exact guardStep_lastContact c st a x
    · right; exact h

/-- If the camera is already stamped with this call's `now` and the
cooldown is positive, no contact-class action can pass the cooldown
check. -/
lemma claim_approves_stamped (c : GuardCall) (st : GuardState) (t : ActionType)
    (hκ : 0 < c.cooldown_contact_s)
    (h : st.lastContact c.camera_id = some c.now)
    (hct : contactClass t = true) :
    claim_approves c st t = false := by
  have hneg : ¬((c.cooldown_contact_s : ℚ) ≤ c.now - c.now) := by
    rw [sub_self]
    exact not_le.mpr (by exact_mod_cast hκ)
  cases t <;> simp_all [claim_approves, contactClass]

/-- An approved contact-class action stamps `_last_contact_time` with
the call's `now` (claim-side update). -/
lemma claim_update_contact_stamps (c : GuardCall) (st : GuardState)
    (t : ActionType) (hct : contactClass t = true) :
    (claim_update c st t true).lastContact c.camera_id = some c.now := by
  unfold claim_update GuardState.setLastContact GuardState.incCallCount
  split_ifs <;> simp_all

/-- Once the camera is stamped with this call's `now`, every later
contact-class decision in the same call is rejected. -/
lemma go_stamped_rejects (c : GuardCall) (hκ : 0 < c.cooldown_contact_s)
    (as : List PlanAction) :
    ∀ (st : GuardState), st.lastContact c.camera_id = some c.now →
    ∀ k a d, as.get? k = some a → contactClass a.type = true →
      (approvePlanGo c st as).2.1.get? k = some d → d.approved = false := by
  induction as with
  | nil => intro st h k a d hga; simp at hga
  | cons a0 rest ih =>
    intro st h k a d hga hct hgd
    cases k with
    | zero =>
      simp only [List.get?_cons_zero, Option.some.injEq] at hga
      simp only [approvePlanGo, List.get?_cons_zero, Option.some.injEq] at hgd
      rw [← hgd, guardStep_approved]
      apply claim_approves_stamped c st a0.type hκ h
      rw [hga]; exact hct
    | succ k' =>
      simp only [List.get?_cons_succ] at hga
      simp only [approvePlanGo, List.get?_cons_succ] at hgd
      have h' : ((guardStep c st a0).2).lastContact c.camera_id = some c.now := by
        rcases guardStep_lastContact c st a0 c.camera_id with hh | hh
        · rw [hh]; exact h
        · exact hh
      exact ih ((guardStep c st a0).2) h' k' a d hga hct hgd

/-- An approved contact-class decision anywhere in a call leaves the
final state stamped with the call's `now`. -/
lemma go_approval_stamps (c : GuardCall) (as : List PlanAction) :
    ∀ (st : GuardState) k a d, as.get? k = some a → contactClass a.type = true →
      (approvePlanGo c st as).2.1.get? k = some d → d.approved = true →
      ((approvePlanGo c st as).2.2).lastContact c.camera_id = some c.now := by
  induction as with
  | nil => intro st k a d hga; simp at hga
  | cons a0 rest ih =>
    intro st k a d hga hct hgd hda
    cases k with
    | zero =>
      simp only [List.get?_cons_zero, Option.some.injEq] at hga
      simp only [approvePlanGo, List.get?_cons_zero, Option.some.injEq] at hgd
      have hda0 : (guardStep c st a0).1.approved = true := by rw [hgd]; exact hda
      have hct0 : contactClass a0.type = true := by rw [hga]; exact hct
      have hstamp : ((guardStep c st a0).2).lastContact c.camera_id = some c.now := by
        rw [guardStep_approved] at hda0
        rw [guardStep_state, guardStep_approved, hda0]
        exact claim_update_contact_stamps c st a0.type hct0
      simp only [approvePlanGo]
      rcases approvePlanGo_lastContact c ((guardStep c st a0).2) rest c.camera_id with hh | hh
      · rw [hh]; exact hstamp
      · exact hh
    | succ k' =>
      simp only [List.get?_cons_succ] at hga
      simp only [approvePlanGo, List.get?_cons_succ] at hgd ⊢
      exact ih ((guardStep c st a0).2) k' a d hga hct hgd hda

/-- An approved contact-class decision certifies the cooldown gap
against the entry value of `_last_contact_time`. -/
lemma claim_approves_contact_gap (c : GuardCall) (st : GuardState)
    (t : ActionType) (hct : contactClass t = true)
    (happ : claim_approves c st t = true) :
    (c.cooldown_contact_s : ℚ) ≤ c.now - (st.lastContact c.camera_id).getD 0 := by
  cases t <;> simp_all [claim_approves, contactClass]

/-- If the camera entered the call with `_last_contact_time = v` and a
contact-class decision of the call is approved, the call's `now` is at
least a full cooldown after `v`. -/
lemma go_approval_gap (c : GuardCall) (hκ : 0 < c.cooldown_contact_s)
    (as : List PlanAction) :
    ∀ (st : GuardState) (v : ℚ), st.lastContact c.camera_id = some v →
    ∀ k a d, as.get? k = some a → contactClass a.type = true →
      (approvePlanGo c st as).2.1.get? k = some d → d.approved = true →
      (c.cooldown_contact_s : ℚ) ≤ c.now - v := by
  induction as with
  | nil => intro st v hv k a d hga; simp at hga
  | cons a0 rest ih =>
    intro st v hv k a d hga hct hgd hda
    cases k with
    | zero =>
      simp only [List.get?_cons_zero, Option.some.injEq] at hga
      simp only [approvePlanGo, List.get?_cons_zero, Option.some.injEq] at hgd
      have hda0 : (guardStep c st a0).1.approved = true := by rw [hgd]; exact hda
      rw [guardStep_approved] at hda0
      have hct0 : contactClass a0.type = true := by rw [hga]; exact hct
      have hg := claim_approves_contact_gap c st a0.type hct0 hda0
      rwa [hv, Option.getD_some] at hg
    | succ k' =>
      simp only [List.get?_cons_succ] at hga
      simp only [approvePlanGo, List.get?_cons_succ] at hgd
      rcases guardStep_lastContact c st a0 c.camera_id with hh | hh
      · exact ih ((guardStep c st a0).2) v (hh.trans hv) k' a d hga hct hgd hda
      · have := go_stamped_rejects c hκ rest ((guardStep c st a0).2) hh k' a d hga hct hgd
        rw [hda] at this
        exact absurd this (by simp)

/-- Within a single `approve_plan` call with positive cooldown, two
distinct contact-class actions are never both approved. -/
lemma go_two_contact (c : GuardCall) (hκ : 0 < c.cooldown_contact_s)
    (as : List PlanAction) :
    ∀ (st : GuardState) k l ak al dk dl, k < l →
      as.get? k = some ak → contactClass ak.type = true →
      as.get? l = some al → contactClass al.type = true →
      (approvePlanGo c st as).2.1.get? k = some dk → dk.approved = true →
      (approvePlanGo c st as).2.1.get? l = some dl → dl.approved = true → False := by
  induction as with
  | nil => intro st k l ak al dk dl hkl hga; simp at hga
  | cons a0 rest ih =>
    intro st k l ak al dk dl hkl hgak hctk hgal hctl hgdk hdak hgdl hdal
    cases k with
    | zero =>
      obtain ⟨l', rfl⟩ : ∃ l', l = l' + 1 := ⟨l - 1, by omega⟩
      simp only [List.get?_cons_zero, Option.some.injEq] at hgak
      simp only [approvePlanGo, List.get?_cons_zero, Option.some.injEq] at hgdk
      simp only [List.get?_cons_succ] at hgal
      simp only [approvePlanGo, List.get?_cons_succ] at hgdl
      have hdak0 : (guardStep c st a0).1.approved = true := by rw [hgdk]; exact hdak
      have hctk0 : contactClass a0.type = true := by rw [hgak]; exact hctk
      have hstamp : ((guardStep c st a0).2).lastContact c.camera_id = some c.now := by
        rw [guardStep_approved] at hdak0
        rw [guardStep_state, guardStep_approved, hdak0]
        exact claim_update_contact_stamps c st a0.type hctk0
      have hrej := go_stamped_rejects c hκ rest ((guardStep c st a0).2) hstamp l' al dl hgal hctl hgdl
      rw [hdal] at hrej
      exact absurd hrej (by simp)
    | succ k' =>
      obtain ⟨l', rfl⟩ : ∃ l', l = l' + 1 := ⟨l - 1, by omega⟩
      simp only [List.get?_cons_succ] at hgak hgal
      simp only [approvePlanGo, List.get?_cons_succ] at hgdk hgdl
      exact ih ((guardStep c st a0).2) k' l' ak al dk dl (by omega)
        hgak hctk hgal hctl hgdk hdak hgdl hdal

lemma callAt_eq_some {ops : List GuardOp} {i : ℕ} {c : GuardCall} :
    callAt ops i = some c ↔ ops.get? i = some (.plan c) := by
  unfold callAt
  cases h : ops.get? i with
  | none => simp
  | some op => cases op <;> simp

lemma stateAt_succ_of_get {ops : List GuardOp} {i : ℕ} {op : GuardOp}
    (h : ops.get? i = some op) :
    stateAt ops (i + 1) = runOp (stateAt ops i) op := by
  unfold stateAt
  rw [List.get?_eq_getElem?] at h
  rw [List.take_succ, h]
  simp

lemma stateAt_succ_of_none {ops : List GuardOp} {i : ℕ}
    (h : ops.get? i = none) :
    stateAt ops (i + 1) = stateAt ops i := by
  unfold stateAt
  rw [List.get?_eq_getElem?] at h
  rw [List.take_succ, h]
  simp

/-- Persistence of a lower bound on `_last_contact_time[cam]` along a
segment of the trace with no reset of `cam` and all call timestamps at
least `t`. -/
lemma guard_persist (ops : List GuardOp) (cam : String) (t : ℚ) (a b : ℕ)
    (hab : a ≤ b)
    (htimes : ∀ m cm, a ≤ m → m < b → callAt ops m = some cm → t ≤ cm.now)
    (hnores : ∀ m, a ≤ m → m < b → ops.get? m ≠ some (.reset cam))
    (h : ∃ v, (stateAt ops a).lastContact cam = some v ∧ t ≤ v) :
    ∃ v, (stateAt ops b).lastContact cam = some v ∧ t ≤ v := by
  induction b, hab using Nat.le_induction with
  | base => exact h
  | succ b hab ih =>
    have hprev := ih (fun m cm hm hmb => htimes m cm hm (by omega))
      (fun m hm hmb => hnores m hm (by omega))
    cases hop : ops.get? b with
    | none => rw [stateAt_succ_of_none hop]; exact hprev
    | some op =>
      rw [stateAt_succ_of_get hop]
      obtain ⟨v, hv, htv⟩ := hprev
      cases op with
      | plan c' =>
        have ht : t ≤ c'.now :=
          htimes b c' hab (by omega) (callAt_eq_some.mpr hop)
        rcases approvePlanGo_lastContact c' (stateAt ops b) c'.actions cam with hh | hh
        · exact ⟨v, hh.trans hv, htv⟩
        · exact ⟨c'.now, hh, ht⟩
      | reset d =>
        have hd : cam ≠ d := by
          intro e
          exact hnores b hab (by omega) (by rw [hop, e])
        refine ⟨v, ?_, htv⟩
        show (reset_camera_state (stateAt ops b) d).lastContact cam = some v
        unfold reset_camera_state
        simpa [hd] using hv

/-- C6: along any guard trace with a fixed positive contact cooldown and
non-decreasing call timestamps, two distinct contact-class actions on
the same camera whose calls are less than a cooldown apart, with no
intervening reset of that camera, are never both approved. -/
theorem guard_cooldown_exclusive
    (ops : List GuardOp) (cam : String) (κ : ℤ) (hκ : 0 < κ)
    (i j k l : ℕ) (ci cj : GuardCall) (ak al : PlanAction)
    (hij : i ≤ j)
    (hi : callAt ops i = some ci) (hj : callAt ops j = some cj)
    (hcami : ci.camera_id = cam) (hcamj : cj.camera_id = cam)
    (hκi : ci.cooldown_contact_s = κ) (hκj : cj.cooldown_contact_s = κ)
    (hmono : ∀ p q cp cq, p ≤ q → callAt ops p = some cp →
      callAt ops q = some cq → cp.now ≤ cq.now)
    (hnores : ∀ m, i < m → m < j → ops.get? m ≠ some (.reset cam))
    (hak : ci.actions.get? k = some ak) (hal : cj.actions.get? l = some al)
    (hakc : contactClass ak.type = true) (halc : contactClass al.type = true)
    (hdiff : cj.now - ci.now < (κ : ℚ))
    (hne : i ≠ j ∨ k ≠ l) :
    ¬(approvedAt ops i k = true ∧ approvedAt ops j l = true) := by
  rintro ⟨hA, hB⟩
  have hκi' : 0 < ci.cooldown_contact_s := by omega
  have hκj' : 0 < cj.cooldown_contact_s := by omega
  -- unpack the two approved decisions
  have hdecsi : decisionsAt ops i = (approve_plan ci (stateAt ops i)).2.1 := by
    unfold decisionsAt; rw [hi]
  have hdecsj : decisionsAt ops j = (approve_plan cj (stateAt ops j)).2.1 := by
    unfold decisionsAt; rw [hj]
  obtain ⟨dk, hdk, hdka⟩ : ∃ d, (approve_plan ci (stateAt ops i)).2.1.get? k = some d
      ∧ d.approved = true := by
    unfold approvedAt at hA
    rw [hdecsi] at hA
    cases hg : (approve_plan ci (stateAt ops i)).2.1.get? k with
    | none => rw [hg] at hA; simp [Option.elim] at hA
    | some d => exact ⟨d, rfl, by rw [hg] at hA; simpa [Option.elim] using hA⟩
  obtain ⟨dl, hdl, hdla⟩ : ∃ d, (approve_plan cj (stateAt ops j)).2.1.get? l = some d
      ∧ d.approved = true := by
    unfold approvedAt at hB
    rw [hdecsj] at hB
    cases hg : (approve_plan cj (stateAt ops j)).2.1.get? l with
    | none => rw [hg] at hB; simp [Option.elim] at hB
    | some d => exact ⟨d, rfl, by rw [hg] at hB; simpa [Option.elim] using hB⟩
  rcases Nat.lt_or_ge i j with hlt | hge
  · -- two different calls: the first approval stamps the camera, the
    -- stamp persists up to call `j`, and the gap contradicts `hdiff`
    have hstamp : ((approvePlanGo ci (stateAt ops i) ci.actions).2.2).lastContact
        ci.camera_id = some ci.now :=
      go_approval_stamps ci ci.actions (stateAt ops i) k ak dk hak hakc hdk hdka
    have hnext : stateAt ops (i + 1) = runOp (stateAt ops i) (.plan ci) :=
      stateAt_succ_of_get (callAt_eq_some.mp hi)
    have hstart : ∃ v, (stateAt ops (i + 1)).lastContact cam = some v ∧ ci.now ≤ v := by
      refine ⟨ci.now, ?_, le_refl _⟩
      rw [hnext]
      show ((approve_plan ci (stateAt ops i)).2.2).lastContact cam = some ci.now
      rw [← hcami]
      exact hstamp
    have hpersist := guard_persist ops cam ci.now (i + 1) j (by omega)
      (fun m cm hm hmj hcm => hmono i m ci cm (by omega) hi hcm)
      (fun m hm hmj => hnores m (by omega) hmj)
      hstart
    obtain ⟨v, hv, hciv⟩ := hpersist
    have hgap : (cj.cooldown_contact_s : ℚ) ≤ cj.now - v := by
      apply go_approval_gap cj hκj' cj.actions (stateAt ops j) v _ l al dl hal halc hdl hdla
      rw [hcamj]; exact hv
    rw [hκj] at hgap
    have : (κ : ℚ) ≤ cj.now - ci.now := le_trans hgap (by linarith)
    linarith
  · -- same call: two distinct contact-class approvals inside one
    -- `approve_plan` run are impossible
    have hji : i = j := by omega
    subst hji
    have hcij : ci = cj := by
      rw [hi] at hj
      exact Option.some.inj hj
    subst hcij
    have hkl : k ≠ l := by
      rcases hne with h | h
      · exact absurd rfl h
      · exact h
    rcases Nat.lt_or_ge k l with hklt | hkge
    · exact go_two_contact ci hκi' ci.actions (stateAt ops i) k l ak al dk dl
        hklt hak hakc hal halc hdk hdka hdl hdla
    · have hllt : l < k := by omega
      exact go_two_contact ci hκi' ci.actions (stateAt ops i) l k al ak dl dk
        hllt hal halc hak hakc hdl hdla hdk hdka

/-- Witness for C6: on the concrete trace `w6ops` (two SMS actions on
camera `cam1`, 2 seconds apart, cooldown 5), the first is approved and
the theorem forbids both being approved. -/
theorem guard_cooldown_exclusive_witness :
    approvedAt w6ops 0 0 = true
    ∧ ¬(approvedAt w6ops 0 0 = true ∧ approvedAt w6ops 1 0 = true) := by
  constructor
  · norm_num [approvedAt, decisionsAt, callAt, w6ops, stateAt, approve_plan,
      approvePlanGo, guardStep, w6c1, GuardState.init, contactClass,
      touchesLastContact, GuardState.setLastContact, GuardState.incCallCount]
    rfl
  · have hmono : ∀ p q cp cq, p ≤ q → callAt w6ops p = some cp →
        callAt w6ops q = some cq → cp.now ≤ cq.now := by
      intro p q cp cq hpq hp hq
      rcases p with _ | _ | p
      · have hp' : w6c1 = cp := Option.some.inj hp
        rcases q with _ | _ | q
        · have hq' : w6c1 = cq := Option.some.inj hq
          rw [← hp', ← hq']
        · have hq' : w6c2 = cq := Option.some.inj hq
          rw [← hp', ← hq']
          norm_num [w6c1, w6c2]
        · exact Option.noConfusion hq
      · rcases q with _ | _ | q
        · omega
        · have hp' : w6c2 = cp := Option.some.inj hp
          have hq' : w6c2 = cq := Option.some.inj hq
          rw [← hp', ← hq']
        · exact Option.noConfusion hq
      · exact Option.noConfusion hp
    have hnores : ∀ m, 0 < m → m < 1 → w6ops.get? m ≠ some (.reset ("cam1")) := by
      intro m h1 h2
      exact absurd h2 (by omega)
    exact guard_cooldown_exclusive w6ops ("cam1") 5 (by decide) 0 1 0 0 w6c1 w6c2
      { type := .SEND_SMS_PRIMARY } { type := .SEND_SMS_PRIMARY }
      (by omega) rfl rfl rfl rfl rfl rfl hmono hnores rfl rfl rfl rfl
      (by norm_num [w6c1, w6c2]) (Or.inl (by decide))

/-! ## Theorems for C3 -/

/-- C3 (amended): when the first planner response fails to parse the
adapter retries exactly once on the first two frames (half of the up to
four frames sent first); when the retry also fails, the incident is
planned with the deterministic fallback plan whose fields are:
verdict POSSIBLE_FALL, severity_seed 4 above motion 0.8 else 3,
confidence 0.3, the single reasons string "Fallback plan: Gemini
unavailable or returned invalid response" (not the wording in the
claim), SMS at delay 0 plus voice at delay 1.0 exactly when voice is
enabled and the seed is at least 4, and replan interval 5.0. -/
theorem planner_retry_fallback (planner : List String → Option PlannerPlan)
    (frames : List String) (motion : ℚ) (voice : Bool)
    (h1 : planner (frames.take 4) = none) :
    (∀ p, planner (frames.take 2) = some p →
      planWithRetry planner frames motion voice = p)
    ∧ (planner (frames.take 2) = none →
        planWithRetry planner frames motion voice = fallback_plan motion voice)
    ∧ (fallback_plan motion voice).verdict = .POSSIBLE_FALL
    ∧ (fallback_plan motion voice).severity_seed = (if motion > 0.8 then 4 else 3)
    ∧ (fallback_plan motion voice).confidence = 0.3
    ∧ (fallback_plan motion voice).reasons
        = ["Fallback plan: Gemini unavailable or returned invalid response"]
    ∧ (fallback_plan motion voice).actions
        = [{ type := .SEND_SMS_PRIMARY, delay_s := 0 }]
          ++ (if voice ∧ (if motion > 0.8 then (4 : ℤ) else 3) ≥ 4
              then [{ type := .START_VOICE_CALL_PRIMARY, delay_s := 1.0 }] else [])
    ∧ (fallback_plan motion voice).replan_interval_s = 5.0 := by
  refine ⟨?_, ?_, rfl, rfl, rfl, rfl, rfl, rfl⟩
  · intro p hp
    unfold planWithRetry
    rw [h1, hp]
  · intro h2
    unfold planWithRetry
    rw [h1, h2]

/-- C3 counterexample: the fallback plan's reasons string is
"Fallback plan: Gemini unavailable or returned invalid response", not
the claim's "Fallback plan: planner unavailable or invalid". -/
theorem planner_fallback_counterexample :
    planWithRetry (fun _ => none) [] 0 false = fallback_plan 0 false
    ∧ (fallback_plan 0 false).reasons
        = ["Fallback plan: Gemini unavailable or returned invalid response"]
    ∧ ¬((fallback_plan 0 false).reasons
        = ["Fallback plan: planner unavailable or invalid"]) :=
  ⟨rfl, rfl, by decide⟩

/-- Witness for C3 at the always-failing planner. -/
theorem planner_retry_fallback_witness :
    ((fun _ : List String => (none : Option PlannerPlan)) (List.take 4 []) = none)
    ∧ planWithRetry (fun _ => none) [] 1 true = fallback_plan 1 true :=
  ⟨rfl, ((planner_retry_fallback (fun _ => none) [] 1 true rfl).2.1 rfl)⟩

/-! ## Theorems for C4 -/

/-- C4 (amended): a fall trigger on a camera that already has an ACTIVE
incident creates no second incident (the table keeps its length and the
existing incident's id is reused) and does not attach the new frames,
but it does NOT leave severity untouched: both severity_seed and
severity_current are overwritten with the freshly planned
severity_seed. -/
theorem handle_incident_dedup (db : List IncidentRec) (cam : String)
    (frames : List String) (lang newId : String) (plan : PlannerPlan)
    (inc : IncidentRec) (h : findActiveIncident db cam = some inc) :
    (handleIncidentDb db cam frames lang newId plan).1.length = db.length
    ∧ (handleIncidentDb db cam frames lang newId plan).2 = inc.id
    ∧ (handleIncidentDb db cam frames lang newId plan).1
        = db.map (fun i => if i.id = inc.id then applyPlanToIncident i plan else i)
    ∧ (applyPlanToIncident inc plan).severity_seed = plan.severity_seed
    ∧ (applyPlanToIncident inc plan).severity_current = plan.severity_seed
    ∧ (applyPlanToIncident inc plan).frames_b64 = inc.frames_b64 := by
  unfold handleIncidentDb
  rw [h]
  exact ⟨by simp, rfl, rfl, rfl, rfl, rfl⟩

/-- C4 counterexample: a duplicate trigger on `cam-c4` (ACTIVE incident
at severity 5) with a new plan seeded 3 resets severity_current from 5
to 3 and does not attach the new frame. -/
theorem handle_incident_dedup_counterexample :
    findActiveIncident [c4inc] ("cam-c4") = some c4inc
    ∧ ((handleIncidentDb [c4inc] ("cam-c4") [("frame1" : String)] ("en") ("fresh")
        c4plan).1.map IncidentRec.severity_current = [3])
    ∧ c4inc.severity_current = 5
    ∧ ((handleIncidentDb [c4inc] ("cam-c4") [("frame1" : String)] ("en") ("fresh")
        c4plan).1.map IncidentRec.frames_b64 = [[]])
    ∧ ¬((3 : ℤ) = 5) :=
  ⟨rfl, rfl, rfl, rfl, by decide⟩

/-- Witness for C4's amended theorem on the concrete duplicate
trigger. -/
theorem handle_incident_dedup_witness :
    findActiveIncident [c4inc] ("cam-c4") = some c4inc
    ∧ (handleIncidentDb [c4inc] ("cam-c4") [] ("en") ("fresh") c4plan).1.length
        = ([c4inc] : List IncidentRec).length :=
  ⟨rfl, (handle_incident_dedup [c4inc] ("cam-c4") [] ("en") ("fresh") c4plan c4inc rfl).1⟩

/-! ## Theorems for C5 -/

/-- C5 (amended): acknowledging a CLOSED incident returns success but is
NOT a no-op: the endpoint has no status check, so it sets
acknowledged=true, ack_by, and status=ACKED (un-closing the incident)
and resets the camera's guard state. -/
theorem ack_closed_not_noop (db : List IncidentRec) (incident_id ack_by : String)
    (gst : GuardState) (inc : IncidentRec)
    (h : findIncident db incident_id = some inc) (hst : inc.status = "CLOSED") :
    (acknowledge_incident db incident_id ack_by gst).2.2
        = some ("acknowledged", incident_id)
    ∧ (acknowledge_incident db incident_id ack_by gst).1
        = db.map (fun i => if i.id = incident_id
            then { i with acknowledged := true, ack_by := some ack_by,
                          status := "ACKED" }
            else i)
    ∧ (acknowledge_incident db incident_id ack_by gst).2.1
        = reset_camera_state gst inc.camera_id := by
  unfold acknowledge_incident
  rw [h]
  exact ⟨rfl, rfl, rfl⟩

/-- C5 counterexample: acking the CLOSED incident `inc-c5` reports
success and rewrites its status to ACKED — not a no-op. -/
theorem ack_closed_counterexample :
    c5inc.status = "CLOSED"
    ∧ ((acknowledge_incident [c5inc] ("inc-c5") ("caregiver") GuardState.init).1.map
        IncidentRec.status = ["ACKED"])
    ∧ (acknowledge_incident [c5inc] ("inc-c5") ("caregiver") GuardState.init).2.2
        = some ("acknowledged", "inc-c5")
    ∧ ¬(("ACKED" : String) = "CLOSED") :=
  ⟨rfl, rfl, rfl, by decide⟩

/-- Witness for C5's amended theorem at the CLOSED incident. -/
theorem ack_closed_not_noop_witness :
    findIncident [c5inc] ("inc-c5") = some c5inc
    ∧ (acknowledge_incident [c5inc] ("inc-c5") ("caregiver") GuardState.init).2.2
        = some ("acknowledged", "inc-c5") :=
  ⟨rfl, (ack_closed_not_noop [c5inc] ("inc-c5") ("caregiver") GuardState.init
      c5inc rfl rfl).1⟩

/-! ## Theorems for C7 -/

/-- C7 (amended): after the API ack, the API false-alarm, the DTMF-1
ack or the DTMF-4 false-alarm on any found incident, both guard-state
entries for that incident's camera are empty — but the DTMF-2
acknowledgement (will-call) returns the guard state unchanged, so guard
state is NOT empty after that acknowledgement path. -/
theorem guard_reset_on_ack (db : List IncidentRec) (incident_id ack_by : String)
    (gst : GuardState) (inc : IncidentRec)
    (h : findIncident db incident_id = some inc) :
    ((acknowledge_incident db incident_id ack_by gst).2.1.lastContact inc.camera_id = none
      ∧ (acknowledge_incident db incident_id ack_by gst).2.1.primaryCallCounts
          inc.camera_id = none)
    ∧ ((false_alarm db incident_id gst).2.1.lastContact inc.camera_id = none
      ∧ (false_alarm db incident_id gst).2.1.primaryCallCounts inc.camera_id = none)
    ∧ ((dtmf_webhook db incident_id ("1") gst).2.1.lastContact inc.camera_id = none
      ∧ (dtmf_webhook db incident_id ("1") gst).2.1.primaryCallCounts
          inc.camera_id = none)
    ∧ ((dtmf_webhook db incident_id ("4") gst).2.1.lastContact inc.camera_id = none
      ∧ (dtmf_webhook db incident_id ("4") gst).2.1.primaryCallCounts
          inc.camera_id = none)
    ∧ (dtmf_webhook db incident_id ("2") gst).2.1 = gst := by
  unfold acknowledge_incident false_alarm dtmf_webhook
  rw [h]
  simp [reset_camera_state]

/-- C7 counterexample: a DTMF-2 acknowledgement on `inc-c7` completes
(the incident becomes ACKED and acknowledged) yet the guard state for
`cam-c7` still holds its last-contact stamp. -/
theorem guard_reset_dtmf2_counterexample :
    ((dtmf_webhook [c7inc] ("inc-c7") ("2") c7gst).1.map IncidentRec.acknowledged
        = [true])
    ∧ ((dtmf_webhook [c7inc] ("inc-c7") ("2") c7gst).1.map IncidentRec.status
        = ["ACKED"])
    ∧ (dtmf_webhook [c7inc] ("inc-c7") ("2") c7gst).2.1.lastContact ("cam-c7")
        = some 50
    ∧ ¬(some (50 : ℚ) = (none : Option ℚ)) :=
  ⟨rfl, rfl, rfl, by simp⟩

/-- Witness for C7's amended theorem at the concrete incident. -/
theorem guard_reset_on_ack_witness :
    findIncident [c7inc] ("inc-c7") = some c7inc
    ∧ (acknowledge_incident [c7inc] ("inc-c7") ("caregiver") c7gst).2.1.lastContact
        c7inc.camera_id = none :=
  ⟨rfl, (guard_reset_on_ack [c7inc] ("inc-c7") ("caregiver") c7gst c7inc rfl).1.1⟩

/-! ## Theorems for C8 -/

/-- The head of a `mergeDict` image entry keeps its key. -/
lemma mergeDict_entry_fst (patch : List (String × ℚ)) (kv : String × ℚ) :
    Prod.fst (match patch.find? (fun p => p.1 == kv.1) with
     | some p => (kv.1, p.2)
     | none => kv) = kv.1 := by
  cases patch.find? (fun p => p.1 == kv.1) <;> rfl

/-- Dict-merge lookup semantics: a key takes the patch's value when the
patch has it, and the old value otherwise. -/
lemma configGet_mergeDict (old patch : List (String × ℚ)) (k : String) :
    configGet (mergeDict old patch) k
      = match patch.find? (fun p => p.1 == k) with
        | some p => some p.2
        | none => configGet old k := by
  unfold configGet mergeDict
  rw [List.find?_append, List.find?_map]
  have hcomp : ((fun kv : String × ℚ => kv.1 == k) ∘ (fun kv : String × ℚ =>
      match patch.find? (fun p => p.1 == kv.1) with
      | some p => (kv.1, p.2)
      | none => kv)) = fun kv => kv.1 == k := by
    funext kv
    simp only [Function.comp]
    rw [mergeDict_entry_fst]
  rw [hcomp]
  cases hold : old.find? (fun kv => kv.1 == k) with
  | some kv =>
    have hbeq := List.find?_some hold
    have hk : kv.1 = k := eq_of_beq hbeq
    have hfind : patch.find? (fun p => p.1 == kv.1) = patch.find? (fun p => p.1 == k) := by
      rw [hk]
    cases hp : patch.find? (fun p => p.1 == k) with
    | some p =>
      simp only [hold, Option.map_some', Option.or_some, hfind, hp]
    | none =>
      simp only [hold, Option.map_some', Option.or_some, hfind, hp, configGet]
  | none =>
    simp only [hold, Option.map_none', Option.none_or]
    rw [List.find?_filter]
    have hpred : (fun a : String × ℚ =>
        decide ((old.find? (fun kv => kv.1 == a.1)).isNone = true ∧ (a.1 == k) = true))
        = fun a : String × ℚ => a.1 == k := by
      funext a
      by_cases hak : (a.1 == k) = true
      · have ha : a.1 = k := eq_of_beq hak
        rw [ha, hold]
        simp
      · simp [hak]
    rw [hpred]
    cases hp : patch.find? (fun a : String × ℚ => a.1 == k) <;>
      simp [hp, configGet, hold]

/-- C8 (amended): a suggested config patch is applied ONLY when the
target camera is idle (risk ≤ 0.3 and no ACTIVE incident) — when the
camera is not idle the camera table is returned unchanged — and the
patch must have at least one key among the FIVE allowed keys
(`check_interval_s` is not one of them, contrary to the claim's six keys
of §3); on apply the camera's config takes the patched value exactly on
the suggested allowed keys and keeps its old value on every other
key. -/
theorem apply_suggestion_correct (cams : List CameraRec) (incs : List IncidentRec)
    (s : Suggestion) :
    (is_camera_idle cams incs s.camera_id = false →
      apply_one_suggestion cams incs s = cams)
    ∧ (∀ cam : CameraRec,
        ¬(s.camera_id = "") →
        is_camera_idle cams incs s.camera_id = true →
        ¬(s.config_json = []) →
        ¬(s.config_json.filter (fun kv => allowed_keys.contains kv.1) = []) →
        cams.find? (fun c => c.id == s.camera_id) = some cam →
        apply_one_suggestion cams incs s
          = cams.map (fun c => if c.id = s.camera_id
              then { c with config := (mergeDict c.config
                  (s.config_json.filter (fun kv => allowed_keys.contains kv.1))) }
              else c)
        ∧ (∀ k, configGet (mergeDict cam.config
              (s.config_json.filter (fun kv => allowed_keys.contains kv.1))) k
            = match (s.config_json.filter (fun kv => allowed_keys.contains kv.1)).find?
                  (fun p => p.1 == k) with
              | some p => some p.2
              | none => configGet cam.config k)
        ∧ (∀ k, allowed_keys.contains k = false →
            configGet (mergeDict cam.config
              (s.config_json.filter (fun kv => allowed_keys.contains kv.1))) k
              = configGet cam.config k)) := by
  constructor
  · intro hnot
    unfold apply_one_suggestion
    by_cases hid : s.camera_id = ""
    · rw [if_pos hid]
    · rw [if_neg hid, hnot]
      rw [if_pos rfl]
  · intro cam hid hidle hcfg hfilt hfind
    refine ⟨?_, fun k => configGet_mergeDict cam.config _ k, fun k hk => ?_⟩
    · simp only [apply_one_suggestion]
      rw [if_neg hid, hidle]
      rw [if_neg (show ¬(true = false) by simp)]
      rw [if_neg hcfg, if_neg hfilt, hfind]
    · rw [configGet_mergeDict]
      have hnone : (s.config_json.filter
          (fun kv => allowed_keys.contains kv.1)).find? (fun p => p.1 == k) = none := by
        rw [List.find?_eq_none]
        intro x hx hpk
        have hx1 : x.1 = k := eq_of_beq hpk
        have hmem := List.of_mem_filter hx
        rw [hx1, hk] at hmem
        exact Bool.false_ne_true hmem
      rw [hnone]

/-- C8 counterexample: camera `cam-c8` is idle, yet a suggestion whose
only key is `check_interval_s` (one of the six §3 keys) is NOT merged —
the code's allowed set has only five keys and drops the patch
entirely. -/
theorem apply_suggestion_counterexample :
    is_camera_idle [c8cam] [] ("cam-c8") = true
    ∧ apply_one_suggestion [c8cam] [] c8sugg = [c8cam]
    ∧ configGet c8cam.config ("check_interval_s") = none
    ∧ ("check_interval_s" ∈ claimRecognizedKeys)
    ∧ configGet (mergeDict c8cam.config (c8sugg.config_json.filter
        (fun kv => claimRecognizedKeys.contains kv.1))) ("check_interval_s")
      = some 10 := by
  have hidle : is_camera_idle [c8cam] [] ("cam-c8") = true := by
    norm_num [is_camera_idle, c8cam, findActiveIncident]
  refine ⟨hidle, ?_, rfl, by decide, rfl⟩
  unfold apply_one_suggestion
  rw [show c8sugg.camera_id = ("cam-c8" : String) from rfl,
      show c8sugg.config_json = [(("check_interval_s" : String), (10 : ℚ))] from rfl]
  rw [hidle]
  simp [allowed_keys, c8cam]

/-- Witness for C8's amended theorem: the suggestion `c8sugg2` (one
allowed key, one bogus key) is applied on the idle camera and the
allowed key takes the suggested value; on the non-idle camera
(risk 0.9) the same suggestion changes nothing. -/
theorem apply_suggestion_correct_witness :
    is_camera_idle [c8cam] [] ("cam-c8") = true
    ∧ configGet (mergeDict c8cam.config (c8sugg2.config_json.filter
        (fun kv => allowed_keys.contains kv.1))) ("stillness_threshold")
      = some 0.9
    ∧ is_camera_idle [c8camBusy] [] ("cam-c8") = false
    ∧ apply_one_suggestion [c8camBusy] [] c8sugg2 = [c8camBusy] := by
  have hidle : is_camera_idle [c8cam] [] ("cam-c8") = true := by
    norm_num [is_camera_idle, c8cam, findActiveIncident]
  have hbusy : is_camera_idle [c8camBusy] [] ("cam-c8") = false := by
    norm_num [is_camera_idle, c8camBusy, findActiveIncident]
  refine ⟨hidle, ?_, hbusy, ?_⟩
  · have h := ((apply_suggestion_correct [c8cam] [] c8sugg2).2 c8cam (by decide)
      hidle (by simp [c8sugg2]) (by decide) rfl).2.1 ("stillness_threshold")
    rw [h]
    rfl
  · exact (apply_suggestion_correct [c8camBusy] [] c8sugg2).1 hbusy

/-! ## Theorems for C9 -/

/-- C9 (amended): at plan-generation time a missing incident aborts the
plan with a single PLAN_FAILED event carrying the reason "Incident not
found" and writes nothing; at action-execution time, however,
CLOSE_INCIDENT on a missing incident silently skips the update and
still reports the success result "Incident closed" (no PLAN_FAILED is
emitted by the executor), contrary to the claim's last part. -/
theorem missing_entity_handling (db : List IncidentRec)
    (plans : List IncidentPlanRec) (plan_id inc_id camera_id : String)
    (severity : ℤ) (verdict : Verdict) (sms call : String → String → String)
    (primary backup summary : String)
    (h : findIncident db inc_id = none) :
    generate_plan_for_incident db plans plan_id inc_id camera_id severity verdict
      = (db, plans,
         [{ incident_id := inc_id, camera_id := camera_id,
            kind := "PLAN_FAILED", reason := "Incident not found" }])
    ∧ run_action sms call { type := .CLOSE_INCIDENT } inc_id camera_id
        primary backup summary db
      = ("Incident closed", db) := by
  unfold generate_plan_for_incident run_action
  rw [h]
  exact ⟨rfl, rfl⟩

/-- C9 counterexample: executing CLOSE_INCIDENT against an empty table
(the incident does not exist) reports the same success result "Incident
closed" as a real close — it does not fail. -/
theorem close_incident_counterexample :
    findIncident [] ("missing-incident") = none
    ∧ (run_action (fun _ _ => "sid") (fun _ _ => "sid")
        { type := .CLOSE_INCIDENT } ("missing-incident") ("cam") ("") ("") ("")
        []).1 = "Incident closed" :=
  ⟨rfl, rfl⟩

/-- Witness for C9's amended theorem at a concrete missing incident. -/
theorem missing_entity_handling_witness :
    findIncident [] ("ghost") = none
    ∧ run_action (fun _ _ => "sid") (fun _ _ => "sid")
        { type := .CLOSE_INCIDENT } ("ghost") ("cam") ("") ("") ("") []
      = ("Incident closed", []) :=
  ⟨rfl, (missing_entity_handling [] [] ("p") ("ghost") ("cam") 4 .POSSIBLE_FALL
      (fun _ _ => "sid") (fun _ _ => "sid") ("") ("") ("") rfl).2⟩

end CamGuard
